import Mathlib

/-!
Verification of the SpiderScan orchestrator (spiderscan.py).

The script chains external shell tools: it clones helper repositories,
installs dependencies, collects URLs for a domain with an external
discovery tool, and runs a vulnerability scanner over the collected
URL list.  We embed the script shallowly: the filesystem is an explicit
state (`FS`), external command outcomes are provided by an oracle
(`Env`), and every observable action (command execution, sleeps between
retries, log lines) is recorded in an event trace.  Exceptions are
modelled with `Except`.
-/

namespace SpiderScan

/-- One observable action of the script: running an external command,
sleeping between retry attempts, or emitting a log line. -/
inductive Event where
  | runCmd (cmd : String)
  | sleep (ms : Nat)
  | logInfo (msg : String)
  | logError (msg : String)
deriving DecidableEq, Repr

/-- Exceptions the script can raise: `subprocess.CalledProcessError`
from a failing command, `FileNotFoundError` from the explicit checks in
`run_nuclei`, and the IO error raised by `open` on a missing file. -/
inductive Err where
  | calledProcessError (cmd : String)
  | fileNotFound (msg : String)
  | ioError (msg : String)
deriving DecidableEq, Repr

/-- The filesystem state: text files as an association list from path to
list of lines, plus the set of existing directories. -/
structure FS where
  files : List (String × List String)
  dirs : List String
deriving DecidableEq, Repr

/-- Read a text file: `open(p).readlines()`. -/
def FS.readFile (fs : FS) (p : String) : Option (List String) :=
  match fs.files.find? (fun e => e.1 == p) with
  | some e => some e.2
  | none => none

/-- Write a text file: `open(p, 'w').writelines(ls)`. -/
def FS.writeFile (fs : FS) (p : String) (ls : List String) : FS :=
  { fs with files := (p, ls) :: fs.files.filter (fun e => e.1 != p) }

/-- Model of `os.remove(p)`. -/
def FS.removeFile (fs : FS) (p : String) : FS :=
  { fs with files := fs.files.filter (fun e => e.1 != p) }

/-- Model of `Path(p).exists()`: true for files and directories alike. -/
def FS.pathExists (fs : FS) (p : String) : Bool :=
  fs.files.any (fun e => e.1 == p) || fs.dirs.contains p

/-- Model of `Path(p).mkdir(parents=True, exist_ok=True)`. -/
def FS.mkdir (fs : FS) (p : String) : FS :=
  { fs with dirs := p :: fs.dirs }

/-- The oracle for external processes: whether a command fails on its
k-th attempt, the exit status `subprocess.call` reports for a check
command, the effect a successful command has on the filesystem, and the
text it produces on stdout/stderr. -/
structure Env where
  cmdFails : String → Nat → Bool
  callExit : String → Nat
  effect : String → FS → FS
  stdoutOf : String → String
  stderrOf : String → String

/-- Result of running a piece of the script: the value or the exception,
the filesystem afterwards, and the emitted event trace. -/
def Res (α : Type) : Type := Except Err α × FS × List Event

/-- Sequencing with Python exception propagation: run the continuation
only when the first part returned normally; traces concatenate. -/
def Res.andThen (r : Res Unit) (f : FS → Res Unit) : Res Unit :=
  match r with
  | (Except.ok _, fs, tr) =>
    match f fs with
    | (v, fs2, tr2) => (v, fs2, tr ++ tr2)
  | (Except.error e, fs, tr) => (Except.error e, fs, tr)

/-- One attempt of the body of `run_command`: log, run the process, and
either log its stdout (success) or log the error and stderr and raise
`CalledProcessError` (failure).  A failing external process is modelled
as leaving the filesystem unchanged. -/
def attemptCmd (env : Env) (cmd : String) (k : Nat) (fs : FS) : Res Unit :=
  if env.cmdFails cmd k then
    (Except.error (Err.calledProcessError cmd), fs,
     [Event.logInfo ("Running command: " ++ cmd),
      Event.runCmd cmd,
      Event.logError ("Error occurred while running command: " ++ cmd),
      Event.logError (env.stderrOf cmd)])
  else
    (Except.ok (), env.effect cmd fs,
     [Event.logInfo ("Running command: " ++ cmd),
      Event.runCmd cmd,
      Event.logInfo (env.stdoutOf cmd)])

/-- The `@retry(stop_max_attempt_number=3, wait_fixed=5000)` loop of the
`retrying` library: on failure, sleep 5000 ms and try again while
further attempts remain; once they are exhausted the last exception is
re-raised.  `k` is the index of the current attempt and `rem` the number
of further attempts allowed. -/
def retryRun (env : Env) (cmd : String) : Nat → Nat → FS → Res Unit
  | k, 0, fs => attemptCmd env cmd k fs
  | k, rem + 1, fs =>
    match attemptCmd env cmd k fs with
    | (Except.ok a, fs2, tr) => (Except.ok a, fs2, tr)
    | (Except.error _, fs2, tr) =>
      match retryRun env cmd (k + 1) rem fs2 with
      | (v, fs3, tr2) => (v, fs3, tr ++ Event.sleep 5000 :: tr2)

/-- Model of `run_command`: run a shell command with up to 3 attempts in total
and a fixed 5000 ms delay between consecutive attempts. -/
def run_command (env : Env) (cmd : String) (fs : FS) : Res Unit :=
  retryRun env cmd 0 2 fs

/-- Model of `check_dependency`: run the check command with `subprocess.call`;
if its exit status is non-zero, log and run the install command through
the Command Runner. -/
def check_dependency (env : Env) (command install_command : String) (fs : FS) : Res Unit :=
  if env.callExit command != 0 then
    match run_command env install_command fs with
    | (v, fs2, tr) =>
      (v, fs2,
       Event.runCmd command ::
       Event.logInfo (command ++ " not found. Installing...") :: tr)
  else
    (Except.ok (), fs, [Event.runCmd command])

/-- Model of `clone_repo`: clone a Git repository through the Command Runner
unless the target directory already exists. -/
def clone_repo (env : Env) (repo_url clone_dir : String) (fs : FS) : Res Unit :=
  if FS.pathExists fs clone_dir then
    (Except.ok (), fs, [Event.logInfo ("Repository " ++ clone_dir ++ " already exists.")])
  else
    run_command env ("git clone " ++ repo_url ++ " " ++ clone_dir) fs

/-- The discovery command `collect_urls` builds for a domain. -/
def paramSpiderCmd (domain : String) : String :=
  "python ParamSpider/paramspider.py -d " ++ domain ++ " -o temp_urls.txt"

/-- The fixed temporary file name used by `collect_urls`. -/
def tempFile : String := "temp_urls.txt"

/-- The path `Path(output_dir) / 'urls.txt'`. -/
def urlsPath (output_dir : String) : String := output_dir ++ "/urls.txt"

/-- Model of `collect_urls`: run the discovery tool (which writes the temporary
file), read the temporary file's lines, write them to
`<output_dir>/urls.txt`, and delete the temporary file. -/
def collect_urls (env : Env) (domain output_dir : String) (fs : FS) : Res Unit :=
  let tr0 := [Event.logInfo ("Collecting URLs for domain: " ++ domain)]
  match run_command env (paramSpiderCmd domain) fs with
  | (Except.error e, fs1, tr1) => (Except.error e, fs1, tr0 ++ tr1)
  | (Except.ok _, fs1, tr1) =>
    match FS.readFile fs1 tempFile with
    | none => (Except.error (Err.ioError tempFile), fs1, tr0 ++ tr1)
    | some urls =>
      let fs2 := FS.writeFile fs1 (urlsPath output_dir) urls
      let fs3 := FS.removeFile fs2 tempFile
      (Except.ok (), fs3,
       tr0 ++ tr1 ++ [Event.logInfo ("URLs saved to " ++ urlsPath output_dir)])

/-- The scanner command `run_nuclei` builds. -/
def nucleiCmd (url_file template_dir : String) : String :=
  "nuclei -l " ++ url_file ++ " -t " ++ template_dir

/-- Model of `run_nuclei`: check that the URL file and the template directory
exist (raising `FileNotFoundError` with a logged error if not), then
run the scanner through the Command Runner. -/
def run_nuclei (env : Env) (url_file template_dir : String) (fs : FS) : Res Unit :=
  let tr0 := [Event.logInfo ("Running Nuclei with templates from: " ++ template_dir)]
  if FS.pathExists fs url_file = false then
    (Except.error (Err.fileNotFound ("URL file not found: " ++ url_file)), fs,
     tr0 ++ [Event.logError ("URL file not found: " ++ url_file)])
  else if FS.pathExists fs template_dir = false then
    (Except.error (Err.fileNotFound ("Template directory not found: " ++ template_dir)), fs,
     tr0 ++ [Event.logError ("Template directory not found: " ++ template_dir)])
  else
    match run_command env (nucleiCmd url_file template_dir) fs with
    | (v, fs2, tr) => (v, fs2, tr0 ++ tr)

/-- A future of the two-task `ThreadPoolExecutor`.  Because the
orchestrator blocks on `result()` immediately after each `submit` and
the main thread performs no other work in between, the submitted task
runs against the state current at submission and its outcome is
retrieved unchanged: the future just carries that outcome. -/
structure Future (α : Type) where
  res : Res α

/-- Model of `executor.submit(task, ...)`: the worker starts the task against
the current state. -/
def submitTask {α : Type} (env : Env) (fs : FS) (task : Env → FS → Res α) : Future α :=
  ⟨task env fs⟩

/-- Model of `future.result()`: block until done and return the outcome. -/
def Future.result {α : Type} (f : Future α) : Res α := f.res

/-- The repository URL of the discovery tool. -/
def paramSpiderRepo : String := "https://github.com/0xKayala/ParamSpider.git"

/-- The repository URL of the template collection. -/
def templatesRepo : String := "https://github.com/MuhammadWaseem29/Fuzzingtemplates-.git"

/-- The dependency-install command for the scanner. -/
def nucleiInstall : String :=
  "go install -v github.com/projectdiscovery/nuclei/v2/cmd/nuclei@latest"

/-- Model of `process_target` as written: sequential setup, then the two-task
executor, submitting URL collection and awaiting it before submitting
the scan and awaiting that. -/
def process_target (env : Env) (domain output_dir templates_dir : String) (fs : FS) : Res Unit :=
  Res.andThen (clone_repo env paramSpiderRepo "ParamSpider" (FS.mkdir fs output_dir)) fun fs1 =>
  Res.andThen (run_command env "pip install -r ParamSpider/requirements.txt" fs1) fun fs2 =>
  Res.andThen (clone_repo env templatesRepo templates_dir fs2) fun fs3 =>
  Res.andThen (check_dependency env "nuclei -version" nucleiInstall fs3) fun fs4 =>
  Res.andThen (Future.result (submitTask env fs4 (fun e f => collect_urls e domain output_dir f))) fun fs5 =>
  Future.result (submitTask env fs5 (fun e f => run_nuclei e (urlsPath output_dir) templates_dir f))

/-- The sequential call chain that Section 9 of the spec proposes in
place of the executor: direct calls to `collect_urls` and `run_nuclei`. -/
def process_target_seq (env : Env) (domain output_dir templates_dir : String) (fs : FS) : Res Unit :=
  Res.andThen (clone_repo env paramSpiderRepo "ParamSpider" (FS.mkdir fs output_dir)) fun fs1 =>
  Res.andThen (run_command env "pip install -r ParamSpider/requirements.txt" fs1) fun fs2 =>
  Res.andThen (clone_repo env templatesRepo templates_dir fs2) fun fs3 =>
  Res.andThen (check_dependency env "nuclei -version" nucleiInstall fs3) fun fs4 =>
  Res.andThen (collect_urls env domain output_dir fs4) fun fs5 =>
  run_nuclei env (urlsPath output_dir) templates_dir fs5

/-- Render an exception the way `f"{e}"` does in the top-level handler. -/
def errMsg : Err → String
  | Err.calledProcessError cmd =>
    "Command " ++ cmd ++ " returned non-zero exit status."
  | Err.fileNotFound msg => msg
  | Err.ioError p => "No such file or directory: " ++ p

/-- Model of `main` after argument parsing: run `process_target` under the
top-level try/except; on success log completion and exit 0, on any
exception log the error and exit 1.  The first component is the process
exit code. -/
def main_run (env : Env) (domain output_dir templates_dir : String) (fs : FS) :
    Nat × FS × List Event :=
  match process_target env domain output_dir templates_dir fs with
  | (Except.ok _, fs2, tr) =>
    (0, fs2, Event.logInfo "SpiderScan started." ::
      (tr ++ [Event.logInfo "SpiderScan completed successfully."]))
  | (Except.error e, fs2, tr) =>
    (1, fs2, Event.logInfo "SpiderScan started." ::
      (tr ++ [Event.logError ("SpiderScan encountered an error: " ++ errMsg e)]))

/-- Number of external command executions recorded in a trace. -/
def countRunCmd (tr : List Event) : Nat :=
  (tr.filter (fun e => match e with | Event.runCmd _ => true | _ => false)).length

/-- The four log/exec events of one failing attempt of `run_command`. -/
def failTrace (env : Env) (cmd : String) : List Event :=
  [Event.logInfo ("Running command: " ++ cmd),
   Event.runCmd cmd,
   Event.logError ("Error occurred while running command: " ++ cmd),
   Event.logError (env.stderrOf cmd)]

/-- An environment in which every external command fails on every
attempt. -/
def envAllFail : Env :=
  { cmdFails := fun _ _ => true
    callExit := fun _ => 1
    effect := fun _ fs => fs
    stdoutOf := fun _ => ""
    stderrOf := fun _ => "" }

/-- The empty filesystem. -/
def fs0 : FS := { files := [], dirs := [] }

/-- The function `find?` over a filter that removes the entries at key `p` agrees
with `find?` on the original list when looking for a different key. -/
theorem find_filter_ne (l : List (String × List String)) (p q : String) (h : q ≠ p) :
    (l.filter (fun e => e.1 != p)).find? (fun e => e.1 == q) =
      l.find? (fun e => e.1 == q) := by
  induction l with
  | nil => rfl
  | cons a l ih =>
    rcases eq_or_ne a.1 p with hap | hap
    · have hq : (a.1 == q) = false := by
        simp [hap]
        exact fun h2 => h h2.symm
      have hpq : (p == q) = false := by
        simp
        exact fun h2 => h h2.symm
      simp [List.filter_cons, hap, List.find?_cons, hq, hpq, ih]
    · have hft : (a.1 != p) = true := by simp [hap]
      by_cases haq : (a.1 == q) = true
      · simp [List.filter_cons, hft, List.find?_cons, haq]
      · simp only [Bool.not_eq_true] at haq
        simp [List.filter_cons, hft, List.find?_cons, haq, ih]

/-- Reading back a file just written returns the written lines. -/
theorem FS.readFile_writeFile_self (fs : FS) (p : String) (ls : List String) :
    FS.readFile (FS.writeFile fs p ls) p = some ls := by
  simp [FS.readFile, FS.writeFile, List.find?_cons]

/-- Writing one file leaves every other file unchanged. -/
theorem FS.readFile_writeFile_ne (fs : FS) (p q : String) (ls : List String)
    (h : q ≠ p) :
    FS.readFile (FS.writeFile fs p ls) q = FS.readFile fs q := by
  have hq : (p == q) = false := by
    simp
    exact fun h2 => h h2.symm
  simp [FS.readFile, FS.writeFile, List.find?_cons, hq, find_filter_ne fs.files p q h]

/-- A removed file no longer reads. -/
theorem FS.readFile_removeFile_self (fs : FS) (p : String) :
    FS.readFile (FS.removeFile fs p) p = none := by
  unfold FS.readFile FS.removeFile
  rcases hf : List.find? (fun e => e.1 == p)
      (List.filter (fun e => e.1 != p) fs.files) with _ | e
  · simp only [hf]
  · exfalso
    have hp := List.find?_some hf
    have hmem := List.mem_of_find?_eq_some hf
    have hne := (List.mem_filter.mp hmem).2
    simp at hp hne
    exact hne hp

/-- Removing one file leaves every other file unchanged. -/
theorem FS.readFile_removeFile_ne (fs : FS) (p q : String) (h : q ≠ p) :
    FS.readFile (FS.removeFile fs p) q = FS.readFile fs q := by
  simp [FS.readFile, FS.removeFile, find_filter_ne fs.files p q h]

/-- A file that reads successfully exists as a path. -/
theorem FS.pathExists_of_readFile (fs : FS) (p : String) (ls : List String)
    (h : FS.readFile fs p = some ls) : FS.pathExists fs p = true := by
  unfold FS.readFile at h
  unfold FS.pathExists
  rcases hf : fs.files.find? (fun e => e.1 == p) with _ | e
  · rw [hf] at h; simp at h
  · have hmem := List.mem_of_find?_eq_some hf
    have hp := List.find?_some hf
    have hany : fs.files.any (fun e => e.1 == p) = true :=
      List.any_eq_true.mpr ⟨e, hmem, hp⟩
    simp [hany]

/-- Neither writing nor removing files changes the directory set. -/
theorem FS.dirs_writeFile (fs : FS) (p : String) (ls : List String) :
    (FS.writeFile fs p ls).dirs = fs.dirs := rfl

/-- Removing a file changes no directory. -/
theorem FS.dirs_removeFile (fs : FS) (p : String) :
    (FS.removeFile fs p).dirs = fs.dirs := rfl

/-- The destination `<output_dir>/urls.txt` is never the temporary file
`temp_urls.txt`, whatever the output directory: the paths differ in
their last nine characters. -/
theorem urlsPath_ne_tempFile (odir : String) : urlsPath odir ≠ tempFile := by
  intro h
  have hd : odir.data ++ ("/urls.txt").data = ("temp_urls.txt").data := by
    have h2 := congrArg String.data h
    simpa [urlsPath, tempFile, String.data_append] using h2
  have hlen : odir.data.length = 4 := by
    have h3 := congrArg List.length hd
    rw [List.length_append] at h3
    have e1 : ("/urls.txt").data.length = 9 := rfl
    have e2 : ("temp_urls.txt").data.length = 13 := rfl
    rw [e1, e2] at h3
    omega
  have hdrop := congrArg (List.drop odir.data.length) hd
  rw [List.drop_left] at hdrop
  rw [hlen] at hdrop
  exact absurd hdrop (by decide)

/-- Unfolded behaviour of `run_command` for a command that fails on all
of its first three attempts. -/
theorem run_command_allFail_eq (env : Env) (cmd : String) (fs : FS)
    (h : ∀ k, env.cmdFails cmd k = true) :
    run_command env cmd fs =
      (Except.error (Err.calledProcessError cmd), fs,
       failTrace env cmd ++ Event.sleep 5000 ::
         (failTrace env cmd ++ Event.sleep 5000 :: failTrace env cmd)) := by
  have h0 := h 0
  have h1 := h 1
  have h2 := h 2
  simp [run_command, retryRun, attemptCmd, h0, h1, h2, failTrace]

/-- Unfolded behaviour of `run_command` for a command that succeeds on
its first attempt. -/
theorem run_command_firstOk_eq (env : Env) (cmd : String) (fs : FS)
    (h : env.cmdFails cmd 0 = false) :
    run_command env cmd fs =
      (Except.ok (), env.effect cmd fs,
       [Event.logInfo ("Running command: " ++ cmd),
        Event.runCmd cmd,
        Event.logInfo (env.stdoutOf cmd)]) := by
  simp [run_command, retryRun, attemptCmd, h]

/-- Claim C2: for a command that fails on every attempt, `run_command`
executes it exactly 3 times, sleeps the fixed 5000 ms delay between
consecutive attempts, leaves the filesystem unchanged, and propagates
the failure (raises `CalledProcessError`). -/
theorem run_command_fails_three_attempts (env : Env) (cmd : String) (fs : FS)
    (h : ∀ k, env.cmdFails cmd k = true) :
    run_command env cmd fs =
      (Except.error (Err.calledProcessError cmd), fs,
       failTrace env cmd ++ Event.sleep 5000 ::
         (failTrace env cmd ++ Event.sleep 5000 :: failTrace env cmd))
    ∧ countRunCmd (run_command env cmd fs).2.2 = 3 := by
  have heq := run_command_allFail_eq env cmd fs h
  refine ⟨heq, ?_⟩
  rw [heq]
  simp [countRunCmd, failTrace, List.filter_append]

/-- Witness for C2 at a concrete always-failing environment. -/
theorem run_command_fails_three_attempts_witness :
    run_command envAllFail "x" fs0 =
      (Except.error (Err.calledProcessError "x"), fs0,
       failTrace envAllFail "x" ++ Event.sleep 5000 ::
         (failTrace envAllFail "x" ++ Event.sleep 5000 :: failTrace envAllFail "x"))
    ∧ countRunCmd (run_command envAllFail "x" fs0).2.2 = 3 :=
  run_command_fails_three_attempts envAllFail "x" fs0 (fun _ => rfl)

/-- An environment in which every command succeeds at once, every check
passes, and the discovery tool for `example.com` writes two URLs into
the temporary file. -/
def envAllOk : Env :=
  { cmdFails := fun _ _ => false
    callExit := fun _ => 0
    effect := fun cmd fs =>
      if cmd = paramSpiderCmd "example.com" then
        FS.writeFile fs tempFile ["http://a?x=1\n", "http://b?y=2\n"]
      else fs
    stdoutOf := fun _ => ""
    stderrOf := fun _ => "" }

/-- Unfolded behaviour of `collect_urls` when the discovery command
returns normally and the temporary file then holds `lines`. -/
theorem collect_urls_ok_eq (env : Env) (domain output_dir : String)
    (fs : FS) (lines : List String)
    (hok : (run_command env (paramSpiderCmd domain) fs).1 = Except.ok ())
    (hread : FS.readFile (run_command env (paramSpiderCmd domain) fs).2.1 tempFile =
      some lines) :
    collect_urls env domain output_dir fs =
      (Except.ok (),
       FS.removeFile
         (FS.writeFile (run_command env (paramSpiderCmd domain) fs).2.1
           (urlsPath output_dir) lines) tempFile,
       Event.logInfo ("Collecting URLs for domain: " ++ domain) ::
         ((run_command env (paramSpiderCmd domain) fs).2.2 ++
          [Event.logInfo ("URLs saved to " ++ urlsPath output_dir)])) := by
  rcases hr : run_command env (paramSpiderCmd domain) fs with ⟨v, fs1, tr1⟩
  rw [hr] at hok hread
  simp only at hok hread
  subst hok
  simp [collect_urls, hr, hread]

/-- Claim C1: when the discovery command succeeds and its output file
holds `lines`, `collect_urls` returns normally and
`<output_dir>/urls.txt` holds exactly those lines, in order. -/
theorem collect_urls_copies_lines (env : Env) (domain output_dir : String)
    (fs : FS) (lines : List String)
    (hok : (run_command env (paramSpiderCmd domain) fs).1 = Except.ok ())
    (hread : FS.readFile (run_command env (paramSpiderCmd domain) fs).2.1 tempFile =
      some lines) :
    (collect_urls env domain output_dir fs).1 = Except.ok () ∧
    FS.readFile (collect_urls env domain output_dir fs).2.1 (urlsPath output_dir) =
      some lines := by
  rw [collect_urls_ok_eq env domain output_dir fs lines hok hread]
  refine ⟨rfl, ?_⟩
  rw [FS.readFile_removeFile_ne _ tempFile _ (urlsPath_ne_tempFile output_dir)]
  exact FS.readFile_writeFile_self _ _ lines

/-- Witness for C1: a concrete two-line discovery output is copied
verbatim into `output/urls.txt`. -/
theorem collect_urls_copies_lines_witness :
    (run_command envAllOk (paramSpiderCmd "example.com") fs0).1 = Except.ok () ∧
    FS.readFile (run_command envAllOk (paramSpiderCmd "example.com") fs0).2.1 tempFile =
      some ["http://a?x=1\n", "http://b?y=2\n"] ∧
    (collect_urls envAllOk "example.com" "output" fs0).1 = Except.ok () ∧
    FS.readFile (collect_urls envAllOk "example.com" "output" fs0).2.1
      (urlsPath "output") = some ["http://a?x=1\n", "http://b?y=2\n"] := by
  refine ⟨rfl, rfl, ?_⟩
  exact collect_urls_copies_lines envAllOk "example.com" "output" fs0
    ["http://a?x=1\n", "http://b?y=2\n"] rfl rfl

/-- Claim C9: on a successful run, `collect_urls` deletes the temporary
file; afterwards `<output_dir>/urls.txt` exists, every other file reads
as it did right after the discovery command, and no directory changed —
the URL list is the only artifact left behind. -/
theorem collect_urls_removes_temp (env : Env) (domain output_dir : String)
    (fs : FS) (lines : List String)
    (hok : (run_command env (paramSpiderCmd domain) fs).1 = Except.ok ())
    (hread : FS.readFile (run_command env (paramSpiderCmd domain) fs).2.1 tempFile =
      some lines) :
    FS.readFile (collect_urls env domain output_dir fs).2.1 tempFile = none ∧
    FS.pathExists (collect_urls env domain output_dir fs).2.1 (urlsPath output_dir) = true ∧
    (∀ p, p ≠ urlsPath output_dir → p ≠ tempFile →
      FS.readFile (collect_urls env domain output_dir fs).2.1 p =
        FS.readFile (run_command env (paramSpiderCmd domain) fs).2.1 p) ∧
    (collect_urls env domain output_dir fs).2.1.dirs =
      (run_command env (paramSpiderCmd domain) fs).2.1.dirs := by
  rw [collect_urls_ok_eq env domain output_dir fs lines hok hread]
  refine ⟨FS.readFile_removeFile_self _ _, ?_, ?_, rfl⟩
  · apply FS.pathExists_of_readFile _ _ lines
    rw [FS.readFile_removeFile_ne _ tempFile _ (urlsPath_ne_tempFile output_dir)]
    exact FS.readFile_writeFile_self _ _ lines
  · intro p hp1 hp2
    rw [FS.readFile_removeFile_ne _ tempFile p hp2]
    exact FS.readFile_writeFile_ne _ _ p lines hp1

/-- Witness for C9 at a concrete successful run: the temporary file is
gone, the URL list exists, and an unrelated file is untouched. -/
theorem collect_urls_removes_temp_witness :
    FS.readFile (collect_urls envAllOk "example.com" "out2" fs0).2.1 tempFile = none ∧
    FS.pathExists (collect_urls envAllOk "example.com" "out2" fs0).2.1
      (urlsPath "out2") = true ∧
    FS.readFile (collect_urls envAllOk "example.com" "out2" fs0).2.1 "other.txt" =
      FS.readFile (run_command envAllOk (paramSpiderCmd "example.com") fs0).2.1
        "other.txt" := by
  have h := collect_urls_removes_temp envAllOk "example.com" "out2" fs0
    ["http://a?x=1\n", "http://b?y=2\n"] rfl rfl
  exact ⟨h.1, h.2.1, h.2.2.1 "other.txt" (by decide) (by decide)⟩

/-- Claim C10: when the discovery command fails on every attempt,
`collect_urls` propagates the exception and the filesystem is exactly
the one it started from — in particular `<output_dir>/urls.txt` is
neither created nor overwritten. -/
theorem collect_urls_error_preserves_state (env : Env) (domain output_dir : String)
    (fs : FS)
    (h : ∀ k, env.cmdFails (paramSpiderCmd domain) k = true) :
    (collect_urls env domain output_dir fs).1 =
      Except.error (Err.calledProcessError (paramSpiderCmd domain)) ∧
    (collect_urls env domain output_dir fs).2.1 = fs ∧
    FS.readFile (collect_urls env domain output_dir fs).2.1 (urlsPath output_dir) =
      FS.readFile fs (urlsPath output_dir) := by
  have hrc := run_command_allFail_eq env (paramSpiderCmd domain) fs h
  simp [collect_urls, hrc]

/-- Witness for C10 with the always-failing environment. -/
theorem collect_urls_error_preserves_state_witness :
    (collect_urls envAllFail "example.com" "output" fs0).1 =
      Except.error (Err.calledProcessError (paramSpiderCmd "example.com")) ∧
    (collect_urls envAllFail "example.com" "output" fs0).2.1 = fs0 ∧
    FS.readFile (collect_urls envAllFail "example.com" "output" fs0).2.1
      (urlsPath "output") = FS.readFile fs0 (urlsPath "output") :=
  collect_urls_error_preserves_state envAllFail "example.com" "output" fs0
    (fun _ => rfl)

/-- Claim C3: when the URL list file does not exist, `run_nuclei` logs
the specific error and raises `FileNotFoundError` before building the
scanner command; its trace holds no command execution at all. -/
theorem run_nuclei_missing_url_file (env : Env) (url_file template_dir : String)
    (fs : FS) (h : FS.pathExists fs url_file = false) :
    run_nuclei env url_file template_dir fs =
      (Except.error (Err.fileNotFound ("URL file not found: " ++ url_file)), fs,
       [Event.logInfo ("Running Nuclei with templates from: " ++ template_dir),
        Event.logError ("URL file not found: " ++ url_file)]) ∧
    countRunCmd (run_nuclei env url_file template_dir fs).2.2 = 0 := by
  refine ⟨by simp [run_nuclei, h], ?_⟩
  simp [run_nuclei, h, countRunCmd]

/-- Witness for C3 on the empty filesystem. -/
theorem run_nuclei_missing_url_file_witness :
    run_nuclei envAllOk "u.txt" "tpl" fs0 =
      (Except.error (Err.fileNotFound "URL file not found: u.txt"), fs0,
       [Event.logInfo "Running Nuclei with templates from: tpl",
        Event.logError "URL file not found: u.txt"]) ∧
    countRunCmd (run_nuclei envAllOk "u.txt" "tpl" fs0).2.2 = 0 :=
  run_nuclei_missing_url_file envAllOk "u.txt" "tpl" fs0 rfl

/-- Claim C7: when the URL file exists, `run_nuclei` fails fast with a
logged error and no command execution if the template directory is
missing; when both exist it hands exactly one scanner command over that
URL file and template directory to the Command Runner (and when that
command succeeds at once, exactly one external execution happens). -/
theorem run_nuclei_checks_then_scans (env : Env) (url_file template_dir : String)
    (fs : FS) (hu : FS.pathExists fs url_file = true) :
    (FS.pathExists fs template_dir = false →
      run_nuclei env url_file template_dir fs =
        (Except.error
           (Err.fileNotFound ("Template directory not found: " ++ template_dir)), fs,
         [Event.logInfo ("Running Nuclei with templates from: " ++ template_dir),
          Event.logError ("Template directory not found: " ++ template_dir)]) ∧
      countRunCmd (run_nuclei env url_file template_dir fs).2.2 = 0) ∧
    (FS.pathExists fs template_dir = true →
      run_nuclei env url_file template_dir fs =
        ((run_command env (nucleiCmd url_file template_dir) fs).1,
         (run_command env (nucleiCmd url_file template_dir) fs).2.1,
         Event.logInfo ("Running Nuclei with templates from: " ++ template_dir) ::
           (run_command env (nucleiCmd url_file template_dir) fs).2.2) ∧
      (env.cmdFails (nucleiCmd url_file template_dir) 0 = false →
        countRunCmd (run_nuclei env url_file template_dir fs).2.2 = 1)) := by
  constructor
  · intro ht
    refine ⟨by simp [run_nuclei, hu, ht], ?_⟩
    simp [run_nuclei, hu, ht, countRunCmd]
  · intro ht
    constructor
    · rcases hr : run_command env (nucleiCmd url_file template_dir) fs with ⟨v, fs2, tr⟩
      simp [run_nuclei, hu, ht, hr]
    · intro hc
      have heq := run_command_firstOk_eq env (nucleiCmd url_file template_dir) fs hc
      simp [run_nuclei, hu, ht, heq, countRunCmd]

/-- Witness for C7: with the URL file present, the missing-template case
runs nothing and the both-present case runs the scanner once. -/
theorem run_nuclei_checks_then_scans_witness :
    (countRunCmd (run_nuclei envAllOk "u.txt" "tpl"
        { files := [("u.txt", [])], dirs := [] }).2.2 = 0 ∧
      (run_nuclei envAllOk "u.txt" "tpl"
        { files := [("u.txt", [])], dirs := [] }).1 =
        Except.error (Err.fileNotFound "Template directory not found: tpl")) ∧
    (run_nuclei envAllOk "u.txt" "tpl"
        { files := [("u.txt", [])], dirs := ["tpl"] } =
      ((run_command envAllOk (nucleiCmd "u.txt" "tpl")
          { files := [("u.txt", [])], dirs := ["tpl"] }).1,
       (run_command envAllOk (nucleiCmd "u.txt" "tpl")
          { files := [("u.txt", [])], dirs := ["tpl"] }).2.1,
       Event.logInfo "Running Nuclei with templates from: tpl" ::
         (run_command envAllOk (nucleiCmd "u.txt" "tpl")
            { files := [("u.txt", [])], dirs := ["tpl"] }).2.2) ∧
      countRunCmd (run_nuclei envAllOk "u.txt" "tpl"
        { files := [("u.txt", [])], dirs := ["tpl"] }).2.2 = 1) := by
  have h1 := run_nuclei_checks_then_scans envAllOk "u.txt" "tpl"
    { files := [("u.txt", [])], dirs := [] } rfl
  have h2 := run_nuclei_checks_then_scans envAllOk "u.txt" "tpl"
    { files := [("u.txt", [])], dirs := ["tpl"] } rfl
  refine ⟨⟨(h1.1 rfl).2, ?_⟩, (h2.2 rfl).1, (h2.2 rfl).2 rfl⟩
  rw [(h1.1 rfl).1]
  rfl

/-- Claim C5: `clone_repo` with an existing target directory is a no-op
apart from one log line (result ok, filesystem untouched, no command
execution); with a missing target it is exactly one Command Runner
invocation of the git clone command. -/
theorem clone_repo_clones_iff_missing (env : Env) (repo_url clone_dir : String)
    (fs : FS) :
    (FS.pathExists fs clone_dir = true →
      clone_repo env repo_url clone_dir fs =
        (Except.ok (), fs,
         [Event.logInfo ("Repository " ++ clone_dir ++ " already exists.")]) ∧
      countRunCmd (clone_repo env repo_url clone_dir fs).2.2 = 0) ∧
    (FS.pathExists fs clone_dir = false →
      clone_repo env repo_url clone_dir fs =
        run_command env ("git clone " ++ repo_url ++ " " ++ clone_dir) fs) := by
  constructor
  · intro h
    refine ⟨by simp [clone_repo, h], ?_⟩
    simp [clone_repo, h, countRunCmd]
  · intro h
    simp [clone_repo, h]

/-- Witness for C5: both the existing-directory and missing-directory
behaviours at concrete states. -/
theorem clone_repo_clones_iff_missing_witness :
    (clone_repo envAllOk "https://r.git" "ParamSpider"
        { files := [], dirs := ["ParamSpider"] } =
      (Except.ok (), { files := [], dirs := ["ParamSpider"] },
       [Event.logInfo "Repository ParamSpider already exists."]) ∧
     countRunCmd (clone_repo envAllOk "https://r.git" "ParamSpider"
        { files := [], dirs := ["ParamSpider"] }).2.2 = 0) ∧
    clone_repo envAllOk "https://r.git" "ParamSpider" fs0 =
      run_command envAllOk "git clone https://r.git ParamSpider" fs0 := by
  have h1 := clone_repo_clones_iff_missing envAllOk "https://r.git" "ParamSpider"
    { files := [], dirs := ["ParamSpider"] }
  have h2 := clone_repo_clones_iff_missing envAllOk "https://r.git" "ParamSpider" fs0
  exact ⟨h1.1 rfl, h2.2 rfl⟩

/-- Claim C8: `check_dependency` runs the check command exactly once,
and invokes the Command Runner with the install command exactly when
the check exits non-zero. -/
theorem check_dependency_installs_iff_check_fails (env : Env)
    (command install_command : String) (fs : FS) :
    (env.callExit command = 0 →
      check_dependency env command install_command fs =
        (Except.ok (), fs, [Event.runCmd command])) ∧
    (env.callExit command ≠ 0 →
      check_dependency env command install_command fs =
        ((run_command env install_command fs).1,
         (run_command env install_command fs).2.1,
         Event.runCmd command ::
           Event.logInfo (command ++ " not found. Installing...") ::
           (run_command env install_command fs).2.2)) := by
  constructor
  · intro h
    simp [check_dependency, h]
  · intro h
    rcases hr : run_command env install_command fs with ⟨v, fs2, tr⟩
    simp [check_dependency, h, hr]

/-- Witness for C8: a passing check installs nothing and a failing check
delegates the install command to the Command Runner. -/
theorem check_dependency_installs_iff_check_fails_witness :
    check_dependency envAllOk "nuclei -version" "go install nuclei" fs0 =
      (Except.ok (), fs0, [Event.runCmd "nuclei -version"]) ∧
    check_dependency envAllFail "nuclei -version" "go install nuclei" fs0 =
      ((run_command envAllFail "go install nuclei" fs0).1,
       (run_command envAllFail "go install nuclei" fs0).2.1,
       Event.runCmd "nuclei -version" ::
         Event.logInfo "nuclei -version not found. Installing..." ::
         (run_command envAllFail "go install nuclei" fs0).2.2) := by
  have h1 := check_dependency_installs_iff_check_fails envAllOk
    "nuclei -version" "go install nuclei" fs0
  have h2 := check_dependency_installs_iff_check_fails envAllFail
    "nuclei -version" "go install nuclei" fs0
  exact ⟨h1.1 rfl, h2.2 (by decide)⟩

/-- Claim C6: the submit-then-immediately-await use of the two-task
executor in `process_target` is observationally equivalent — same
result, same filesystem, same trace, for every environment and state —
to the sequential call chain `collect_urls; run_nuclei`: the scan task
is only submitted after the collection task's result has been awaited,
so the two tasks never overlap. -/
theorem process_target_executor_is_sequential (env : Env)
    (domain output_dir templates_dir : String) (fs : FS) :
    process_target env domain output_dir templates_dir fs =
      process_target_seq env domain output_dir templates_dir fs := rfl

/-- Claim C4: `main` exits with code 0 whenever `process_target`
returns normally, and with code 1 — after logging the error — whenever
`process_target` raises. -/
theorem main_exit_codes (env : Env) (domain output_dir templates_dir : String)
    (fs : FS) :
    (∀ u, (process_target env domain output_dir templates_dir fs).1 = Except.ok u →
      (main_run env domain output_dir templates_dir fs).1 = 0) ∧
    (∀ e, (process_target env domain output_dir templates_dir fs).1 = Except.error e →
      (main_run env domain output_dir templates_dir fs).1 = 1 ∧
      Event.logError ("SpiderScan encountered an error: " ++ errMsg e) ∈
        (main_run env domain output_dir templates_dir fs).2.2) := by
  rcases hp : process_target env domain output_dir templates_dir fs with ⟨v, fs2, tr⟩
  constructor
  · intro u hu
    simp at hu
    subst hu
    simp [main_run, hp]
  · intro e he
    simp at he
    subst he
    simp [main_run, hp]

/-- Witness for C4: a run whose first clone command fails exits with
code 1 and a logged error; a fully successful run exits with code 0. -/
theorem main_exit_codes_witness :
    ((process_target envAllFail "example.com" "output" "tpl" fs0).1 =
        Except.error (Err.calledProcessError
          "git clone https://github.com/0xKayala/ParamSpider.git ParamSpider") ∧
      (main_run envAllFail "example.com" "output" "tpl" fs0).1 = 1 ∧
      Event.logError ("SpiderScan encountered an error: " ++
          errMsg (Err.calledProcessError
            "git clone https://github.com/0xKayala/ParamSpider.git ParamSpider")) ∈
        (main_run envAllFail "example.com" "output" "tpl" fs0).2.2) ∧
    ((process_target envAllOk "example.com" "output" "tpl"
        { files := [], dirs := ["tpl"] }).1 = Except.ok () ∧
      (main_run envAllOk "example.com" "output" "tpl"
        { files := [], dirs := ["tpl"] }).1 = 0) := by
  have hf : (process_target envAllFail "example.com" "output" "tpl" fs0).1 =
      Except.error (Err.calledProcessError
        "git clone https://github.com/0xKayala/ParamSpider.git ParamSpider") := rfl
  have ho : (process_target envAllOk "example.com" "output" "tpl"
      { files := [], dirs := ["tpl"] }).1 = Except.ok () := rfl
  have h1 := (main_exit_codes envAllFail "example.com" "output" "tpl" fs0).2 _ hf
  have h2 := (main_exit_codes envAllOk "example.com" "output" "tpl"
    { files := [], dirs := ["tpl"] }).1 () ho
  exact ⟨⟨hf, h1.1, h1.2⟩, ho, h2⟩

end SpiderScan
